import Mathlib

/-!
Shallow embedding of the `derive` procedural-macro crate of
`rust-procedural-macro-example` (file `derive/src/lib.rs`), together with a
model of the runtime behavior of the code each macro generates.

The crate defines four code generators:
* `add_greet`    – a function-like macro (`#[proc_macro]`),
* `greet_derive` – a plain derive macro (`#[proc_macro_derive(Greet)]`),
* `greet`        – an attribute macro (`#[proc_macro_attribute]`) taking a
                   `content = "..."` argument parsed through darling,
* `greet2`       – a derive macro reading a companion `#[greet2(content = "...")]`
                   attribute through darling, unwrapping the parse result.

The embedding works at the level of parsed syntax: a `DeriveInput` mirrors
`syn::DeriveInput` (attributes, visibility, name, data shape), and the token
stream each macro returns is modelled as a list of emitted `Item`s.  The
`println!` call inside every generated `greet` body is kept symbolic as a
format string plus an argument list referencing `self.name` / `self.age`; a
separate model of Rust's format-string substitution gives it runtime meaning.
-/

namespace DeriveExample

/-- A struct field as the macros see it: field visibility, the optional field
name (`None` for tuple-struct fields) and the type, kept as text. -/
structure Field where
  vis : Bool
  ident : Option String
  ty : String
deriving DecidableEq

/-- An outer attribute carried by the input item, e.g.
`#[greet2(content = "...")]`: an attribute path and its name/value pairs. -/
structure Attr where
  path : String
  pairs : List (String × String)
deriving DecidableEq

/-- The data shape of the parsed item, mirroring `syn::Data`:
a struct with fields, an enum with variants, or a union. -/
inductive Data where
  | dstruct (fields : List Field)
  | denum (variants : List String)
  | dunion (fields : List Field)
deriving DecidableEq

/-- Whether the data shape is a plain struct (the shape `add_greet` accepts). -/
def Data.isStructShape : Data → Bool
  | .dstruct _ => true
  | _ => false

/-- The parsed macro input, mirroring the parts of `syn::DeriveInput` the
crate reads: outer attributes, visibility (`true` for `pub`), the item name
and the data shape. -/
structure DeriveInput where
  attrs : List Attr
  vis : Bool
  ident : String
  data : Data
deriving DecidableEq

/-- A reference to a field of `self` inside a generated `greet` body:
the generators only ever write `self.name` and `self.age`. -/
inductive FieldRef where
  | name
  | age
deriving DecidableEq

/-- The `println!` call inside a generated `greet` body: a format string and
the argument list, each argument optionally labelled (`name = self.name`)
and referencing a field of `self`. -/
structure PrintlnCall where
  fmt : String
  args : List (Option String × FieldRef)
deriving DecidableEq

/-- A struct declaration as it appears in emitted code. -/
structure StructDecl where
  attrs : List Attr
  vis : Bool
  ident : String
  fields : List Field
deriving DecidableEq

/-- A darling-style configuration error, as produced while reading the
`content` key of `#[greet(...)]` or `#[greet2(...)]`. -/
inductive DarlingError where
  | missingField (fieldName : String)
  | unknownField (fieldName : String)
  | duplicateField (fieldName : String)
  | parseError (msg : String)
deriving DecidableEq

/-- One item of the token stream a macro emits: a (re)built struct
declaration, the original input item reproduced verbatim (`quote! { #input }`),
an `impl` block holding a generated `greet` body, or a `compile_error!`
expansion carrying darling diagnostics. -/
inductive Item where
  | structDecl (decl : StructDecl)
  | originalItem (input : DeriveInput)
  | implGreet (selfTy : String) (call : PrintlnCall)
  | compileError (errs : List DarlingError)
deriving DecidableEq

/-- The format literal hard-coded in `add_greet` and `greet_derive`:
`"Hello, my name is {} and I am {} years old."` (two positional slots). -/
def defaultFmt : String := "Hello, my name is \x7b\x7d and I am \x7b\x7d years old."

/-- The `println!` call both default-template generators emit:
`println!(defaultFmt, self.name, self.age)`. -/
def defaultCall : PrintlnCall :=
  ⟨defaultFmt, [(none, .name), (none, .age)]⟩

/-- The `println!` call the configured generators emit:
`println!(content, name = self.name, age = self.age)`. -/
def namedCall (content : String) : PrintlnCall :=
  ⟨content, [(some "name", .name), (some "age", .age)]⟩

/-- The function-like macro `add_greet`: requires the input data to be a
struct (otherwise it panics with the message below), then emits a rebuilt
struct declaration `struct #name { #(#fields),* }` — attribute-free, private,
but with the original fields — followed by an `impl` with the default
`greet` body.  The panic is modelled as `Except.error` of the panic message. -/
def add_greet (input : DeriveInput) : Except String (List Item) :=
  match input.data with
  | .dstruct fields =>
      .ok [.structDecl ⟨[], false, input.ident, fields⟩,
           .implGreet input.ident defaultCall]
  | _ => .error "Greet can only be derived for structs"

/-- The derive macro `Greet`: reads only the item name and emits a single
`impl` with the default `greet` body; it never looks at `input.data`. -/
def greet_derive (input : DeriveInput) : List Item :=
  [.implGreet input.ident defaultCall]

/-- The arguments struct `GreetArgs { content: String }` of the attribute
macro, derived via `#[derive(FromMeta)]`. -/
structure GreetArgs where
  content : String
deriving DecidableEq

/-- Darling's field collection for a single mandatory `content` key over a
list of name/value pairs: unknown keys and a missing or duplicated `content`
key are reported as accumulated errors, otherwise the value is returned. -/
def contentFromPairs (pairs : List (String × String)) : Except (List DarlingError) String :=
  let unknown := (pairs.filter (fun p => p.1 ≠ "content")).map
    (fun p => DarlingError.unknownField p.1)
  match pairs.filter (fun p => p.1 = "content") with
  | [] => .error (unknown ++ [.missingField "content"])
  | [(_, v)] => if unknown = [] then .ok v else .error unknown
  | _ :: _ :: _ => .error (unknown ++ [.duplicateField "content"])

/-- `GreetArgs::from_list`, darling's `FromMeta` instance for `GreetArgs`. -/
def GreetArgs.from_list (pairs : List (String × String)) : Except (List DarlingError) GreetArgs :=
  (contentFromPairs pairs).map (fun v => ⟨v⟩)

/-- The raw attribute arguments of `#[greet(...)]` as handed to
`NestedMeta::parse_meta_list`: either a meta list that parses into name/value
pairs, or ill-formed tokens that fail to parse. -/
inductive ArgsInput where
  | wellFormed (pairs : List (String × String))
  | malformed (msg : String)
deriving DecidableEq

/-- The attribute macro `greet`: parses its arguments, returning darling's
error expansion (and nothing else) when the meta list is ill-formed or when
`GreetArgs::from_list` fails; on success it emits the original item verbatim
(`#input`) followed by an `impl` with the configured `greet` body. -/
def greet (args : ArgsInput) (input : DeriveInput) : List Item :=
  match args with
  | .malformed msg => [.compileError [.parseError msg]]
  | .wellFormed pairs =>
      match GreetArgs.from_list pairs with
      | .error errs => [.compileError errs]
      | .ok ga => [.originalItem input, .implGreet input.ident (namedCall ga.content)]

/-- The arguments struct `Greet2Args { content: String }`, derived via
`#[derive(FromDeriveInput)]` with `#[darling(attributes(greet2))]`. -/
structure Greet2Args where
  content : String
deriving DecidableEq

/-- The name/value pairs found in the input's `#[greet2(...)]` attributes. -/
def greet2Pairs (input : DeriveInput) : List (String × String) :=
  ((input.attrs.filter (fun a => a.path = "greet2")).map (fun a => a.pairs)).flatten

/-- `Greet2Args::from_derive_input`: reads the `content` key from the
input's `#[greet2(...)]` attributes, with darling's error reporting. -/
def Greet2Args.from_derive_input (input : DeriveInput) : Except (List DarlingError) Greet2Args :=
  (contentFromPairs (greet2Pairs input)).map (fun v => ⟨v⟩)

/-- The message of the panic raised by `.unwrap()` on an `Err` result. -/
def unwrapPanicMessage : String := "called `Result::unwrap()` on an `Err` value"

/-- The derive macro `Greet2`: calls `Greet2Args::from_derive_input(&input).unwrap()`,
so a missing or invalid `#[greet2(...)]` configuration is a hard panic
(modelled as `Except.error` of the panic message); on success it emits a
single `impl` with the configured `greet` body. -/
def greet2 (input : DeriveInput) : Except String (List Item) :=
  match Greet2Args.from_derive_input input with
  | .error _ => .error unwrapPanicMessage
  | .ok ga => .ok [.implGreet input.ident (namedCall ga.content)]

/-! ## Rust format-string substitution

A model of the subset of `std::fmt` the generated `println!` calls rely on:
`\x7b\x7d` consumes the next implicit positional argument, `\x7bident\x7d`
looks the argument up by name, `\x7b\x7b` and `\x7d\x7d` are brace escapes,
and anything ill-formed (an unclosed brace, an unknown name, a missing
positional argument) is a format error, modelled as `none`. -/

/-- One argument of a format invocation: an optional label and the already
rendered value. -/
structure FmtArg where
  label : Option String
  value : String
deriving DecidableEq

/-- One parsed segment of a format string: a literal character, an implicit
positional slot `\x7b\x7d`, or a named slot `\x7bident\x7d`. -/
inductive Seg where
  | lit (c : Char)
  | posArg
  | namedArg (argName : String)
deriving DecidableEq

/-- The scanner state while parsing a format string: ordinary text, right
after an opening brace, inside an argument slot (with the slot's name so far,
reversed), or right after a closing brace (awaiting its escape twin). -/
inductive FmtMode where
  | normal
  | afterOpen
  | inArg (acc : List Char)
  | afterClose
deriving DecidableEq

/-- Parses a format string into segments, one character at a time, failing
on ill-formed input (a stray or unclosed brace). -/
def parseFmtAux : FmtMode → List Char → Option (List Seg)
  | .normal, [] => some []
  | .afterOpen, [] => none
  | .inArg _, [] => none
  | .afterClose, [] => none
  | .normal, c :: rest =>
      if c = '{' then parseFmtAux .afterOpen rest
      else if c = '}' then parseFmtAux .afterClose rest
      else (parseFmtAux .normal rest).map (fun s => Seg.lit c :: s)
  | .afterOpen, c :: rest =>
      if c = '{' then (parseFmtAux .normal rest).map (fun s => Seg.lit '{' :: s)
      else if c = '}' then (parseFmtAux .normal rest).map (fun s => Seg.posArg :: s)
      else parseFmtAux (.inArg [c]) rest
  | .inArg acc, c :: rest =>
      if c = '}' then (parseFmtAux .normal rest).map (fun s => Seg.namedArg ⟨acc.reverse⟩ :: s)
      else parseFmtAux (.inArg (c :: acc)) rest
  | .afterClose, c :: rest =>
      if c = '}' then (parseFmtAux .normal rest).map (fun s => Seg.lit '}' :: s)
      else none

/-- Parses a format string into segments, failing on ill-formed input. -/
def parseFmt (l : List Char) : Option (List Seg) :=
  parseFmtAux .normal l

/-- Looks a format argument up by its label. -/
def lookupNamed (args : List FmtArg) (nm : String) : Option String :=
  (args.find? (fun a => a.label == some nm)).map (fun a => a.value)

/-- Renders parsed segments against an argument list, tracking the implicit
positional counter; fails on a missing name or exhausted positionals. -/
def renderSegs (args : List FmtArg) : List Seg → Nat → Option (List Char)
  | [], _ => some []
  | Seg.lit c :: rest, pos => (renderSegs args rest pos).map (fun l => c :: l)
  | Seg.posArg :: rest, pos =>
      match args[pos]? with
      | some a => (renderSegs args rest (pos + 1)).map (fun l => a.value.data ++ l)
      | none => none
  | Seg.namedArg nm :: rest, pos =>
      match lookupNamed args nm with
      | some v => (renderSegs args rest pos).map (fun l => v.data ++ l)
      | none => none

/-- Rust format-string substitution: parse, then render from position 0. -/
def rustFormat (fmt : String) (args : List FmtArg) : Option String :=
  (parseFmt fmt.data).bind (fun segs => (renderSegs args segs 0).map (fun l => ⟨l⟩))

/-! ## Runtime semantics of the generated code -/

/-- An instance of the example record: `name` is text, `age` a whole number
(printed in decimal, as Rust's `Display` for `u32` does). -/
structure Person where
  name : String
  age : Nat
deriving DecidableEq

/-- The value a generated body reads from `self` for a field reference. -/
def evalRef (p : Person) : FieldRef → String
  | .name => p.name
  | .age => toString p.age

/-- The format arguments of a generated `println!` call at a given instance. -/
def callArgs (p : Person) (c : PrintlnCall) : List FmtArg :=
  c.args.map (fun x => ⟨x.1, evalRef p x.2⟩)

/-- The line a generated `println!` call prints at a given instance (without
the trailing newline); `none` when the format invocation is ill-formed. -/
def runCall (c : PrintlnCall) (p : Person) : Option String :=
  rustFormat c.fmt (callArgs p c)

/-- The first generated `greet` body among emitted items, if any. -/
def findGreetImpl : List Item → Option PrintlnCall
  | [] => none
  | .implGreet _ c :: _ => some c
  | _ :: rest => findGreetImpl rest

/-- Invoking the generated `greet` capability of an emitted token stream at
an instance: the line its `println!` prints. -/
def runGreet (items : List Item) (p : Person) : Option String :=
  (findGreetImpl items).bind (fun c => runCall c p)

/-! ## The specification's view of templates

The spec describes the template mini-language as literal text with the two
named placeholders `\x7bname\x7d` and `\x7bage\x7d`, and the required output
as "the template with `\x7bname\x7d` replaced by the name and `\x7bage\x7d`
replaced by the age".  These definitions follow the spec's words, to be
compared against the code-side `rustFormat` semantics. -/

/-- Modelled from the spec: replaces every occurrence of the placeholder
`\x7bname\x7d` by `n` and of `\x7bage\x7d` by `a` in a character list,
leaving all other characters untouched. -/
def specSubstChars (n a : List Char) : List Char → List Char
  | [] => []
  | '{' :: 'n' :: 'a' :: 'm' :: 'e' :: '}' :: rest => n ++ specSubstChars n a rest
  | '{' :: 'a' :: 'g' :: 'e' :: '}' :: rest => a ++ specSubstChars n a rest
  | c :: rest => c :: specSubstChars n a rest

/-- Modelled from the spec: the template with `\x7bname\x7d` replaced by `n`
and `\x7bage\x7d` replaced by `a`. -/
def specSubst (t n a : String) : String :=
  ⟨specSubstChars n.data a.data t.data⟩

/-- The default template as the spec states it, with named placeholders:
`"Hello, my name is \x7bname\x7d and I am \x7bage\x7d years old."`. -/
def defaultNamedTemplate : String :=
  "Hello, my name is \x7bname\x7d and I am \x7bage\x7d years old."

/-! ## Well-formed templates

The spec's template mini-language: literal text (no stray braces) with the
placeholders `\x7bname\x7d` and `\x7bage\x7d`. -/

/-- A well-formed template: a sequence of non-brace literal characters and
`name`/`age` placeholders. -/
inductive Tmpl where
  | nil : Tmpl
  | lit : (c : Char) → c ≠ '{' → c ≠ '}' → Tmpl → Tmpl
  | namePh : Tmpl → Tmpl
  | agePh : Tmpl → Tmpl

/-- The characters of a well-formed template. -/
def Tmpl.chars : Tmpl → List Char
  | .nil => []
  | .lit c _ _ t => c :: t.chars
  | .namePh t => '{' :: 'n' :: 'a' :: 'm' :: 'e' :: '}' :: t.chars
  | .agePh t => '{' :: 'a' :: 'g' :: 'e' :: '}' :: t.chars

/-- The text of a well-formed template. -/
def Tmpl.text (t : Tmpl) : String := ⟨t.chars⟩

/-- The parsed segments of a well-formed template. -/
def Tmpl.segs : Tmpl → List Seg
  | .nil => []
  | .lit c _ _ t => .lit c :: t.segs
  | .namePh t => .namedArg "name" :: t.segs
  | .agePh t => .namedArg "age" :: t.segs

/-- The format arguments `name = n, age = a` handed to a configured
generated body at runtime. -/
def namedNA (n a : String) : List FmtArg :=
  [⟨some "name", n⟩, ⟨some "age", a⟩]

/-- Substitution leaves a leading non-brace character untouched. -/
theorem specSubstChars_cons (n a : List Char) (c : Char) (l : List Char) (h1 : c ≠ '{') :
    specSubstChars n a (c :: l) = c :: specSubstChars n a l := by
  simp [specSubstChars, h1]

/-- A well-formed template parses into its segments. -/
theorem tmpl_parse (t : Tmpl) : parseFmtAux .normal t.chars = some t.segs := by
  induction t with
  | nil => rfl
  | lit c h1 h2 t ih =>
      show parseFmtAux .normal (c :: t.chars) = some (Seg.lit c :: t.segs)
      simp only [parseFmtAux, h1, h2, if_false, ih, Option.map_some']
  | namePh t ih =>
      show parseFmtAux .normal (Tmpl.chars (.namePh t)) = some (Tmpl.segs (.namePh t))
      rw [show parseFmtAux FmtMode.normal (Tmpl.chars (.namePh t)) =
            (parseFmtAux FmtMode.normal t.chars).map (fun s => Seg.namedArg "name" :: s) from rfl,
          ih]
      rfl
  | agePh t ih =>
      show parseFmtAux .normal (Tmpl.chars (.agePh t)) = some (Tmpl.segs (.agePh t))
      rw [show parseFmtAux FmtMode.normal (Tmpl.chars (.agePh t)) =
            (parseFmtAux FmtMode.normal t.chars).map (fun s => Seg.namedArg "age" :: s) from rfl,
          ih]
      rfl

/-- Rendering the segments of a well-formed template against the arguments
`name = n, age = a` produces exactly the spec's substitution of the template. -/
theorem tmpl_render (t : Tmpl) (n a : String) (pos : Nat) :
    renderSegs (namedNA n a) t.segs pos = some (specSubstChars n.data a.data t.chars) := by
  induction t generalizing pos with
  | nil => rfl
  | lit c h1 h2 t ih =>
      show (renderSegs (namedNA n a) t.segs pos).map (fun l => c :: l) = _
      rw [ih, Option.map_some', Tmpl.chars,
          specSubstChars_cons n.data a.data c t.chars h1]
  | namePh t ih =>
      show renderSegs (namedNA n a) (Seg.namedArg "name" :: t.segs) pos = _
      rw [show renderSegs (namedNA n a) (Seg.namedArg "name" :: t.segs) pos =
            (renderSegs (namedNA n a) t.segs pos).map (fun l => n.data ++ l) from rfl,
          ih]
      rfl
  | agePh t ih =>
      show renderSegs (namedNA n a) (Seg.namedArg "age" :: t.segs) pos = _
      rw [show renderSegs (namedNA n a) (Seg.namedArg "age" :: t.segs) pos =
            (renderSegs (namedNA n a) t.segs pos).map (fun l => a.data ++ l) from rfl,
          ih]
      rfl

/-- Rust's named-argument formatting of any well-formed template against
`name = n, age = a` is exactly the spec's substitution of the template. -/
theorem tmpl_format (t : Tmpl) (n a : String) :
    rustFormat t.text (namedNA n a) = some (specSubst t.text n a) := by
  show (parseFmtAux .normal t.chars).bind _ = _
  rw [tmpl_parse]
  show (renderSegs (namedNA n a) t.segs 0).map (fun l => (⟨l⟩ : String)) = _
  rw [tmpl_render]
  rfl

/-! ## Concrete inputs from the example programs -/

/-- The fields of the example record: `name: String, age: u32`. -/
def personFields : List Field :=
  [⟨false, some "name", "String"⟩, ⟨false, some "age", "u32"⟩]

/-- The example input item `struct Person { name: String, age: u32 }`. -/
def personInput : DeriveInput :=
  ⟨[], false, "Person", .dstruct personFields⟩

/-- The same record declared `pub`. -/
def pubPersonInput : DeriveInput :=
  ⟨[], true, "Person", .dstruct personFields⟩

/-- A non-struct input: `enum Color { Red, Green }`. -/
def enumInput : DeriveInput :=
  ⟨[], false, "Color", .denum ["Red", "Green"]⟩

/-- The example instance: `name = "Hieu"`, `age = 24`. -/
def hieu : Person := ⟨"Hieu", 24⟩

/-- An input item carrying the companion attribute
`#[greet2(content = ...)]` expected by the `Greet2` derive macro. -/
def greet2Input (content : String) : DeriveInput :=
  ⟨[⟨"greet2", [("content", content)]⟩], false, "Person", .dstruct personFields⟩

/-- Invoking the generated `greet` capability of a macro that can panic:
`none` when the macro panicked instead of emitting code. -/
def runGreetE (r : Except String (List Item)) (p : Person) : Option String :=
  match r with
  | .ok items => runGreet items p
  | .error _ => none

/-- The fields of `self` a generated `println!` call reads, in order. -/
def callRefs (c : PrintlnCall) : List FieldRef :=
  c.args.map (fun x => x.2)

/-- A sample well-formed template, with text `\x7bname\x7d!\x7bage\x7d`. -/
def sampleTmpl : Tmpl :=
  .namePh (.lit '!' (by decide) (by decide) (.agePh .nil))

/-! ## The claims -/

/-- C1: for each of the four generators (`add_greet`, `Greet`, `greet`,
`Greet2`), given the example record with fields `name` (text) and `age`
(whole number) and a well-formed configuration (or none, where the default
template applies), invoking the generated `greet` capability on an instance
with `name = "Hieu"` and `age = 24` prints exactly the template with the
`name` placeholder replaced by `Hieu` and the `age` placeholder replaced
by `24`. -/
theorem claim_C1 :
    runGreetE (add_greet personInput) hieu
      = some (specSubst defaultNamedTemplate "Hieu" "24")
    ∧ runGreet (greet_derive personInput) hieu
      = some (specSubst defaultNamedTemplate "Hieu" "24")
    ∧ (∀ t : Tmpl,
        runGreet (greet (.wellFormed [("content", t.text)]) personInput) hieu
          = some (specSubst t.text "Hieu" "24"))
    ∧ (∀ t : Tmpl,
        runGreetE (greet2 (greet2Input t.text)) hieu
          = some (specSubst t.text "Hieu" "24")) := by
  refine ⟨by decide, by decide, fun t => ?_, fun t => ?_⟩
  · show rustFormat t.text (namedNA "Hieu" "24") = some (specSubst t.text "Hieu" "24")
    exact tmpl_format t "Hieu" "24"
  · show rustFormat t.text (namedNA "Hieu" "24") = some (specSubst t.text "Hieu" "24")
    exact tmpl_format t "Hieu" "24"

/-- C2: the default template used by the `add_greet` function-like macro and
the `Greet` derive macro is exactly
`"Hello, my name is \x7bname\x7d and I am \x7bage\x7d years old."`: both
generators emit one and the same default `println!` call, and at every
instance that call prints exactly this template with the two placeholders
substituted at exactly their positions. -/
theorem claim_C2 :
    (∀ input, greet_derive input = [.implGreet input.ident defaultCall])
    ∧ (∀ input fields, input.data = .dstruct fields →
        add_greet input = .ok [.structDecl ⟨[], false, input.ident, fields⟩,
                               .implGreet input.ident defaultCall])
    ∧ (∀ p : Person,
        runCall defaultCall p
          = some (specSubst defaultNamedTemplate p.name (toString p.age))) := by
  refine ⟨fun input => rfl, fun input fields h => ?_, fun p => rfl⟩
  simp [add_greet, h]

/-- Witness for C2 at the example input. -/
theorem claim_C2_witness :
    add_greet personInput
      = .ok [.structDecl ⟨[], false, "Person", personFields⟩,
             .implGreet "Person" defaultCall] :=
  claim_C2.2.1 personInput personFields rfl

/-- C3: for every input to `add_greet` whose data shape is not a plain
struct, generation aborts with the panic `"Greet can only be derived for
structs"` (the explicit only-structs-supported failure) and emits no code. -/
theorem claim_C3 (input : DeriveInput) (h : input.data.isStructShape = false) :
    add_greet input = .error "Greet can only be derived for structs" := by
  cases hd : input.data with
  | dstruct fields => rw [hd] at h; simp [Data.isStructShape] at h
  | denum v => simp [add_greet, hd]
  | dunion f => simp [add_greet, hd]

/-- Witness for C3 at an enum input. -/
theorem claim_C3_witness :
    add_greet enumInput = .error "Greet can only be derived for structs" :=
  claim_C3 enumInput rfl

/-- C4: for every invocation of the `greet` attribute macro whose
configuration is missing the `content` key, the macro returns a structured
darling diagnostic naming `content` as the missing key, and the returned
output contains no generated `greet` capability. -/
theorem claim_C4 (pairs : List (String × String)) (input : DeriveInput)
    (h : ∀ p ∈ pairs, p.1 ≠ "content") :
    (∃ errs, greet (.wellFormed pairs) input = [.compileError errs]
        ∧ DarlingError.missingField "content" ∈ errs)
    ∧ ∀ nm c, Item.implGreet nm c ∉ greet (.wellFormed pairs) input := by
  have hf : pairs.filter (fun p => p.1 = "content") = [] := by
    rw [List.filter_eq_nil_iff]
    intro p hp
    simp [h p hp]
  have hg : greet (.wellFormed pairs) input
      = [.compileError ((pairs.filter (fun p => p.1 ≠ "content")).map
          (fun p => DarlingError.unknownField p.1) ++ [.missingField "content"])] := by
    simp [greet, GreetArgs.from_list, contentFromPairs, hf, Except.map]
  refine ⟨⟨_, hg, ?_⟩, fun nm c => ?_⟩
  · simp
  · rw [hg]; simp

/-- Witness for C4 at an empty configuration. -/
theorem claim_C4_witness :
    (∃ errs, greet (.wellFormed []) personInput = [.compileError errs]
        ∧ DarlingError.missingField "content" ∈ errs)
    ∧ ∀ nm c, Item.implGreet nm c ∉ greet (.wellFormed []) personInput :=
  claim_C4 [] personInput (by simp)

/-- C5: for every input to the `Greet2` derive macro whose companion
`greet2` configuration is missing or invalid (darling's
`from_derive_input` returns an error), generation terminates with the hard
`unwrap` panic and produces no structured diagnostic output. -/
theorem claim_C5 (input : DeriveInput) (e : List DarlingError)
    (h : Greet2Args.from_derive_input input = .error e) :
    greet2 input = .error unwrapPanicMessage := by
  simp [greet2, h]

/-- Witness for C5 at an input with no `greet2` attribute at all. -/
theorem claim_C5_witness : greet2 personInput = .error unwrapPanicMessage :=
  claim_C5 personInput [.missingField "content"] rfl

/-- C6 counterexample: on the input `pub struct Person { name, age }` the
claim fails — `add_greet` accepts the input, but its output contains no
declaration identical to the input: the rebuilt declaration drops the `pub`
visibility. -/
theorem claim_C6_counterexample :
    add_greet pubPersonInput
      = .ok [.structDecl ⟨[], false, "Person", personFields⟩,
             .implGreet "Person" defaultCall]
    ∧ Item.structDecl ⟨pubPersonInput.attrs, pubPersonInput.vis,
          pubPersonInput.ident, personFields⟩
        ∉ [Item.structDecl ⟨[], false, "Person", personFields⟩,
           Item.implGreet "Person" defaultCall] :=
  ⟨rfl, by decide⟩

/-- C6 (amended): for every struct declaration accepted by `add_greet`, the
emitted output contains a re-declaration of the record with the same name
and the same ordered field list, alongside the attached `greet` capability;
the re-declaration carries no outer attributes and default visibility, so it
is identical to the input whenever the input itself had no outer attributes
and default visibility. -/
theorem claim_C6_amended (input : DeriveInput) (fields : List Field)
    (h : input.data = .dstruct fields) :
    add_greet input
      = .ok [.structDecl ⟨[], false, input.ident, fields⟩,
             .implGreet input.ident defaultCall]
    ∧ (input.attrs = [] → input.vis = false →
        Item.structDecl ⟨input.attrs, input.vis, input.ident, fields⟩
          ∈ [Item.structDecl ⟨[], false, input.ident, fields⟩,
             Item.implGreet input.ident defaultCall]) := by
  refine ⟨by simp [add_greet, h], fun h1 h2 => ?_⟩
  simp [h1, h2]

/-- Witness for the amended C6 at the example input. -/
theorem claim_C6_witness :
    add_greet personInput
      = .ok [.structDecl ⟨[], false, "Person", personFields⟩,
             .implGreet "Person" defaultCall]
    ∧ (personInput.attrs = [] → personInput.vis = false →
        Item.structDecl ⟨personInput.attrs, personInput.vis, "Person", personFields⟩
          ∈ [Item.structDecl ⟨[], false, "Person", personFields⟩,
             Item.implGreet "Person" defaultCall]) :=
  claim_C6_amended personInput personFields rfl

/-- C7: every generator is a stateless pure function of its parsed input:
two invocations on equal inputs (in any two compilation contexts) produce
equal generated output, for all four generators. -/
theorem claim_C7 (i1 i2 : DeriveInput) (a1 a2 : ArgsInput)
    (hi : i1 = i2) (ha : a1 = a2) :
    add_greet i1 = add_greet i2
    ∧ greet_derive i1 = greet_derive i2
    ∧ greet a1 i1 = greet a2 i2
    ∧ greet2 i1 = greet2 i2 := by
  subst hi; subst ha
  exact ⟨rfl, rfl, rfl, rfl⟩

/-- Witness for C7 at the example input. -/
theorem claim_C7_witness :
    add_greet personInput = add_greet personInput
    ∧ greet_derive personInput = greet_derive personInput
    ∧ greet (.wellFormed []) personInput = greet (.wellFormed []) personInput
    ∧ greet2 personInput = greet2 personInput :=
  claim_C7 personInput personInput (.wellFormed []) (.wellFormed []) rfl rfl

/-- C8: the derive-style generators `Greet` and `Greet2` emit only the
`greet` capability attachment (a single `impl` item, no re-declaration of
the record), whereas the attribute-style generator `greet` emits the
original record declaration verbatim followed by the capability. -/
theorem claim_C8 :
    (∀ input, greet_derive input = [.implGreet input.ident defaultCall])
    ∧ (∀ input ga, Greet2Args.from_derive_input input = .ok ga →
        greet2 input = .ok [.implGreet input.ident (namedCall ga.content)])
    ∧ (∀ input pairs ga, GreetArgs.from_list pairs = .ok ga →
        greet (.wellFormed pairs) input
          = [.originalItem input, .implGreet input.ident (namedCall ga.content)]) := by
  refine ⟨fun input => rfl, fun input ga h => ?_, fun input pairs ga h => ?_⟩
  · simp [greet2, h]
  · simp [greet, h]

/-- Witness for C8 at the example inputs. -/
theorem claim_C8_witness :
    greet_derive personInput = [.implGreet "Person" defaultCall]
    ∧ greet2 (greet2Input "Hi") = .ok [.implGreet "Person" (namedCall "Hi")]
    ∧ greet (.wellFormed [("content", "Hi")]) personInput
        = [.originalItem personInput, .implGreet "Person" (namedCall "Hi")] :=
  ⟨claim_C8.1 personInput,
   claim_C8.2.1 (greet2Input "Hi") ⟨"Hi"⟩ rfl,
   claim_C8.2.2 personInput [("content", "Hi")] ⟨"Hi"⟩ rfl⟩

/-- C9: whatever the record's actual field list, every `greet` body emitted
by any of the four generators reads exactly the fields `name` and `age` of
`self`, in that order — the two-field assumption is hard-coded and no other
field is ever referenced. -/
theorem claim_C9 (input : DeriveInput) (args : ArgsInput) (items : List Item)
    (nm : String) (c : PrintlnCall)
    (hgen : add_greet input = .ok items ∨ items = greet_derive input
        ∨ items = greet args input ∨ greet2 input = .ok items)
    (hmem : Item.implGreet nm c ∈ items) :
    callRefs c = [.name, .age] := by
  have hc : c = defaultCall ∨ (∃ s, c = namedCall s) → callRefs c = [.name, .age] := by
    rintro (rfl | ⟨s, rfl⟩) <;> rfl
  apply hc
  rcases hgen with h | h | h | h
  · cases hd : input.data with
    | dstruct fields =>
        simp [add_greet, hd] at h
        rw [← h] at hmem
        simp at hmem
        exact Or.inl hmem.2
    | denum v => simp [add_greet, hd] at h
    | dunion f => simp [add_greet, hd] at h
  · rw [h] at hmem
    simp [greet_derive] at hmem
    exact Or.inl hmem.2
  · cases args with
    | malformed msg =>
        rw [h] at hmem
        simp [greet] at hmem
    | wellFormed pairs =>
        cases hfl : GreetArgs.from_list pairs with
        | error errs =>
            rw [h] at hmem
            simp [greet, hfl] at hmem
        | ok ga =>
            rw [h] at hmem
            simp [greet, hfl] at hmem
            exact Or.inr ⟨ga.content, hmem.2⟩
  · cases hfd : Greet2Args.from_derive_input input with
    | error e => simp [greet2, hfd] at h
    | ok ga =>
        simp [greet2, hfd] at h
        rw [← h] at hmem
        simp at hmem
        exact Or.inr ⟨ga.content, hmem.2⟩

/-- Witness for C9 via the `Greet` derive macro's output. -/
theorem claim_C9_witness : callRefs defaultCall = [FieldRef.name, FieldRef.age] :=
  claim_C9 personInput (.wellFormed []) (greet_derive personInput) "Person" defaultCall
    (Or.inr (Or.inl rfl)) (by decide)

/-- C10: the `Greet` derive macro performs no shape check on its input: its
output depends only on the item's name (it never inspects `input.data`), so
every derive input — including an enum — succeeds and yields a `greet` impl
for the item's name. -/
theorem claim_C10 :
    (∀ input, greet_derive input = [.implGreet input.ident defaultCall])
    ∧ greet_derive enumInput = [.implGreet "Color" defaultCall] :=
  ⟨fun _ => rfl, rfl⟩

end DeriveExample
